import Mathlib

/-!
# Verification of the Gemini proxy handlers

Shallow embedding of `src/api/gemini-2.5-flash.ts`, which contains two
serverless handler variants:

* the *text* variant (`handler`, first part of the file), forwarding to the
  `gemini-2.5-flash:generateContent` endpoint, computing its CORS headers
  inline once at entry;
* the *image-preview* variant (`handler`, second part of the file,
  `api/gemini-proxy.ts`), forwarding to the
  `gemini-2.5-flash-image-preview:generateContent` endpoint, attaching CORS
  headers through `setCors` on every exit path and adding the
  `Origin === 'null'` exception and the `Vary: Origin` header.

JavaScript values relevant to the handlers (JSON bodies, environment
variables, headers) are modelled explicitly; platform primitives
(`JSON.parse` on nontrivial input, `fetch`) are parameters of the handler
functions, standing for the reply the platform would give if called.
-/

namespace GeminiProxy

/-- JSON values, the model of the parsed request body (`body` in the source).
`JSON.parse` can also return `null`, numbers, booleans and strings, so all of
those are included. Numbers are modelled as integers: no claim depends on
fractional values. -/
inductive Json where
  | null
  | bool (b : Bool)
  | num (n : Int)
  | str (s : String)
  | arr (elems : List Json)
  | obj (fields : List (String × Json))

/-- JavaScript truthiness of a JSON value, as used by
`if (body?.generationConfig?.response_mime_type)`. -/
def Json.truthy : Json → Bool
  | .null => false
  | .bool b => b
  | .num n => n != 0
  | .str s => s != ""
  | .arr _ => true
  | .obj _ => true

/-- Property access `j?.k`: field lookup on objects, `undefined` (here
`none`) on every other value, matching optional chaining on `null` and
plain-access misses on primitives and arrays. -/
def Json.get : Json → String → Option Json
  | .obj fields, k => (fields.find? (fun p => p.1 == k)).map Prod.snd
  | _, _ => none

/-- `delete j[k]` on an object; no effect on other values. -/
def Json.deleteField : Json → String → Json
  | .obj fields, k => .obj (fields.filter (fun p => p.1 != k))
  | j, _ => j

/-- Minimal model of `JSON.stringify` string escaping. -/
def escapeChar (c : Char) : String :=
  if c = '"' then "\\\""
  else if c = '\\' then "\\\\"
  else if c = '\n' then "\\n"
  else if c = '\r' then "\\r"
  else if c = '\t' then "\\t"
  else String.singleton c

/-- Escape every character of a string for JSON output. -/
def escapeString (s : String) : String :=
  String.join (s.toList.map escapeChar)

mutual

/-- `JSON.stringify` on the modelled JSON values. -/
def jstringify : Json → String
  | .null => "null"
  | .bool true => "true"
  | .bool false => "false"
  | .num n => toString n
  | .str s => "\"" ++ escapeString s ++ "\""
  | .arr elems => "[" ++ jstringifyElems elems ++ "]"
  | .obj fields => "\x7b" ++ jstringifyFields fields ++ "\x7d"

/-- Comma-separated stringification of array elements. -/
def jstringifyElems : List Json → String
  | [] => ""
  | [j] => jstringify j
  | j :: rest => jstringify j ++ "," ++ jstringifyElems rest

/-- Comma-separated stringification of object fields. -/
def jstringifyFields : List (String × Json) → String
  | [] => ""
  | [(k, v)] => "\"" ++ escapeString k ++ "\":" ++ jstringify v
  | (k, v) :: rest =>
      "\"" ++ escapeString k ++ "\":" ++ jstringify v ++ "," ++ jstringifyFields rest

end

/-- The inbound request body as the Vercel runtime hands it to the handler:
absent (`undefined`), a raw unparsed string, or an already-parsed JSON value
(for which `typeof req.body === 'object'`, i.e. `null`, an array or an
object; a JSON body parsing to a primitive reaches the handler as its raw
string form and is re-parsed there). -/
inductive ReqBody where
  | undef
  | raw (s : String)
  | json (j : Json)

/-- Environment configuration, each variable possibly unset. -/
structure Env where
  ALLOWED_ORIGINS : Option String
  GEMINI_API_KEY : Option String
  CLIENT_TOKEN : Option String
deriving Repr, DecidableEq

/-- The parts of the inbound request the handlers read. -/
structure Request where
  method : String
  origin : Option String
  clientToken : Option String
  body : ReqBody

/-- The response sent back to the client. Headers are an association list
with `setHeader` replace-on-write semantics, so each name occurs at most
once. -/
structure Response where
  status : Nat
  headers : List (String × String)
  body : String
deriving Repr, DecidableEq

/-- A thrown JavaScript error, as consumed by the `catch` branch:
`message` models `err?.message` (absent on non-object throwables) and
`str` models `String(err)`. -/
structure JsError where
  message : Option String
  str : String
deriving Repr, DecidableEq

/-- The outcome of the `fetch` call to the upstream endpoint: either a
response (status, `Content-Type` header if any, body text), or a thrown
error. -/
inductive FetchOutcome where
  | success (status : Nat) (contentType : Option String) (text : String)
  | failure (e : JsError)

/-- The outbound request the handler hands to `fetch`. -/
structure UpstreamRequest where
  url : String
  contentType : String
  apiKeyHeader : String
  bodyJson : Json
  bodyText : String

/-- Which `return` statement of the handler produced the response. -/
inductive Branch where
  | preflight
  | badMethod
  | noApiKey
  | badToken
  | badJson
  | relay
  | fetchFail
deriving Repr, DecidableEq

/-- A handler invocation result: the response, the branch that produced it,
and the upstream request if `fetch` was reached. -/
structure HandlerResult where
  response : Response
  branch : Branch
  upstream : Option UpstreamRequest

/-- `res.setHeader(k, v)`: replaces any existing header of the same name. -/
def setHeader (hs : List (String × String)) (k v : String) : List (String × String) :=
  hs.filter (fun p => p.1 != k) ++ [(k, v)]

/-- Look a header up in a response header list. -/
def getHeader (hs : List (String × String)) (k : String) : Option String :=
  (hs.find? (fun p => p.1 == k)).map Prod.snd

/-- JavaScript `s.split(',')` on the character list: splitting the empty
string yields one empty group, exactly as in JS. -/
def splitCommaChars : List Char → List (List Char)
  | [] => [[]]
  | c :: cs =>
      if c = ',' then [] :: splitCommaChars cs
      else
        match splitCommaChars cs with
        | [] => [[c]]
        | g :: gs => (c :: g) :: gs

/-- JavaScript `s.split(',')`. -/
def jsSplitComma (s : String) : List String :=
  (splitCommaChars s.data).map (fun cs => String.mk cs)

/-- Whitespace for the purposes of `String.prototype.trim` (the characters
that can realistically occur in an `ALLOWED_ORIGINS` value). -/
def isJsSpace (c : Char) : Bool :=
  c = ' ' || c = '\t' || c = '\n' || c = '\r'

/-- JavaScript `s.trim()`: strip whitespace from both ends. -/
def jsTrim (s : String) : String :=
  String.mk (((s.data.dropWhile isJsSpace).reverse.dropWhile isJsSpace).reverse)

/-- `getAllowedOrigins` of the text variant: split `ALLOWED_ORIGINS` on
commas, trim, drop empty entries. -/
def getAllowedOrigins (allowedOriginsEnv : Option String) : List String :=
  ((jsSplitComma (allowedOriginsEnv.getD "")).map jsTrim).filter (fun s => s != "")

/-- `parseAllowed` of the image-preview variant; textually a duplicate of
`getAllowedOrigins`. -/
def parseAllowed (allowedOriginsEnv : Option String) : List String :=
  ((jsSplitComma (allowedOriginsEnv.getD "")).map jsTrim).filter (fun s => s != "")

/-- The request origin as the handlers read it:
`(req.headers.origin as string) || ''`. -/
def reqOrigin (req : Request) : String :=
  req.origin.getD ""

/-- The `allowOrigin` value of the text variant:
`(!allowList.length || allowList.includes(origin)) ? (origin || '*') : ''`.
No exception for the literal origin `"null"`. -/
def allowOriginText (env : Env) (origin : String) : String :=
  let allowList := getAllowedOrigins env.ALLOWED_ORIGINS
  if allowList.isEmpty || allowList.contains origin then
    (if origin = "" then "*" else origin)
  else ""

/-- The `allowOrigin` value computed inside `setCors` of the image-preview
variant: allow when the list is empty, the origin is listed, or the origin
is literally `"null"`. -/
def allowOriginImage (env : Env) (origin : String) : String :=
  let allowList := parseAllowed env.ALLOWED_ORIGINS
  if allowList.isEmpty || allowList.contains origin || origin == "null" then
    (if origin = "" then "*" else origin)
  else ""

/-- The three CORS header writes at the top of the text variant's handler
(`Access-Control-Allow-Methods`, `Access-Control-Allow-Headers`, and the
conditional `Access-Control-Allow-Origin`). No `Vary` header is written. -/
def corsText (env : Env) (req : Request) : List (String × String) :=
  let ao := allowOriginText env (reqOrigin req)
  let hs := setHeader [] "Access-Control-Allow-Methods" "POST, OPTIONS"
  let hs := setHeader hs "Access-Control-Allow-Headers" "Content-Type, X-Client-Token"
  if ao ≠ "" then setHeader hs "Access-Control-Allow-Origin" ao else hs

/-- `setCors` of the image-preview variant: conditional
`Access-Control-Allow-Origin`, then `Vary`, `Access-Control-Allow-Methods`
and `Access-Control-Allow-Headers`. -/
def setCors (hs : List (String × String)) (env : Env) (originHeader : Option String) :
    List (String × String) :=
  let origin := originHeader.getD ""
  let ao := allowOriginImage env origin
  let hs := if ao ≠ "" then setHeader hs "Access-Control-Allow-Origin" ao else hs
  let hs := setHeader hs "Vary" "Origin"
  let hs := setHeader hs "Access-Control-Allow-Methods" "POST, OPTIONS"
  setHeader hs "Access-Control-Allow-Headers" "Content-Type, X-Client-Token"

/-- `process.env.CLIENT_TOKEN || ''`. -/
def requiredToken (env : Env) : String :=
  env.CLIENT_TOKEN.getD ""

/-- `(req.headers['x-client-token'] as string) || ''`. -/
def reqToken (req : Request) : String :=
  req.clientToken.getD ""

/-- The body-parsing step
`typeof req.body === 'object' ? req.body : JSON.parse(req.body || '{}')`,
with the platform's `JSON.parse` as the `parse` parameter (`none` models a
parse exception). An absent body and an empty-string body both reach
`JSON.parse` with the literal text of an empty object. -/
def coerceBody (parse : String → Option Json) : ReqBody → Option Json
  | .json j => some j
  | .undef => parse "\x7b\x7d"
  | .raw s => parse (if s = "" then "\x7b\x7d" else s)

/-- The body sanitizer shared by both variants:
if `body?.generationConfig?.response_mime_type` is truthy, delete
`body.generationConfig.response_mime_type`; otherwise leave the body
untouched (the `try \x7b...\x7d catch \x7b\x7d` around it never fires on
plain JSON data). -/
def sanitize (body : Json) : Json :=
  match (body.get "generationConfig").bind (fun gc => gc.get "response_mime_type") with
  | some v =>
      if v.truthy then
        match body with
        | .obj fields =>
            .obj (fields.map (fun p =>
              if p.1 == "generationConfig" then (p.1, p.2.deleteField "response_mime_type")
              else p))
        | j => j
      else body
  | none => body

/-- `JSON.stringify({error: msg})`, the body of the structured error
responses produced with `res.json`. -/
def errBody (msg : String) : String :=
  jstringify (Json.obj [("error", Json.str msg)])

/-- `String(err?.message || err)`: the message when it is a truthy
(non-empty) string, otherwise `String(err)`. -/
def jsErrDetail (e : JsError) : String :=
  match e.message with
  | some m => if m = "" then e.str else m
  | none => e.str

/-- `JSON.stringify({error: 'Upstream fetch failed', detail: ...})`. -/
def fetchFailBody (e : JsError) : String :=
  jstringify (Json.obj
    [("error", Json.str "Upstream fetch failed"), ("detail", Json.str (jsErrDetail e))])

/-- `upstream.headers.get('Content-Type') || 'application/json'`. -/
def relayContentType (ct : Option String) : String :=
  match ct with
  | some c => if c = "" then "application/json" else c
  | none => "application/json"

/-- The upstream endpoint of the text variant. -/
def textEndpoint : String :=
  "https://generativelanguage.googleapis.com/v1beta/models/gemini-2.5-flash:generateContent"

/-- The upstream endpoint of the image-preview variant. -/
def imageEndpoint : String :=
  "https://generativelanguage.googleapis.com/v1beta/models/gemini-2.5-flash-image-preview:generateContent"

/-- The `fetch` argument built by either variant (method POST, JSON
content type, `x-goog-api-key`, stringified sanitized body). -/
def mkUpstreamRequest (url apiKey : String) (body : Json) : UpstreamRequest :=
  ⟨url, "application/json", apiKey, body, jstringify body⟩

/-- Headers of the text variant's relay response: the entry headers plus
`Content-Type`, and the conditional `Access-Control-Allow-Origin` written
again (same value, so a replace with no visible effect). -/
def textRelayHeaders (env : Env) (req : Request) (ct : Option String) :
    List (String × String) :=
  let hs := setHeader (corsText env req) "Content-Type" (relayContentType ct)
  let ao := allowOriginText env (reqOrigin req)
  if ao ≠ "" then setHeader hs "Access-Control-Allow-Origin" ao else hs

/-- Headers of the image-preview variant's relay response: entry `setCors`,
then `Content-Type`, then `setCors` again. -/
def imageRelayHeaders (env : Env) (req : Request) (ct : Option String) :
    List (String × String) :=
  setCors (setHeader (setCors [] env req.origin) "Content-Type" (relayContentType ct))
    env req.origin

/-- Headers of the image-preview variant's catch-branch response: entry
`setCors` re-applied. -/
def imageFailHeaders (env : Env) (req : Request) : List (String × String) :=
  setCors (setCors [] env req.origin) env req.origin

/-- The text variant's handler (first part of the source file). `parse` and
`fetchResult` stand for the platform's `JSON.parse` and the outcome `fetch`
would produce if called. -/
def textHandler (env : Env) (req : Request) (parse : String → Option Json)
    (fetchResult : FetchOutcome) : HandlerResult :=
  let hs := corsText env req
  if req.method = "OPTIONS" then
    ⟨⟨204, hs, ""⟩, .preflight, none⟩
  else if req.method ≠ "POST" then
    ⟨⟨405, hs, errBody "Only POST allowed"⟩, .badMethod, none⟩
  else if env.GEMINI_API_KEY.getD "" = "" then
    ⟨⟨500, hs, errBody "Server misconfigured: missing GEMINI_API_KEY"⟩, .noApiKey, none⟩
  else if requiredToken env ≠ "" ∧ reqToken req ≠ requiredToken env then
    ⟨⟨401, hs, errBody "Unauthorized"⟩, .badToken, none⟩
  else
    match coerceBody parse req.body with
    | none => ⟨⟨400, hs, errBody "Invalid JSON"⟩, .badJson, none⟩
    | some body =>
        let body := sanitize body
        let ureq := mkUpstreamRequest textEndpoint (env.GEMINI_API_KEY.getD "") body
        match fetchResult with
        | .success status ct text =>
            ⟨⟨status, textRelayHeaders env req ct, text⟩, .relay, some ureq⟩
        | .failure e =>
            ⟨⟨502, hs, fetchFailBody e⟩, .fetchFail, some ureq⟩

/-- The image-preview variant's handler (second part of the source file,
`api/gemini-proxy.ts`): identical control flow, but CORS headers are
written through `setCors`, which is re-applied before the relay response
and in the catch branch. -/
def imageHandler (env : Env) (req : Request) (parse : String → Option Json)
    (fetchResult : FetchOutcome) : HandlerResult :=
  let hs := setCors [] env req.origin
  if req.method = "OPTIONS" then
    ⟨⟨204, hs, ""⟩, .preflight, none⟩
  else if req.method ≠ "POST" then
    ⟨⟨405, hs, errBody "Only POST allowed"⟩, .badMethod, none⟩
  else if env.GEMINI_API_KEY.getD "" = "" then
    ⟨⟨500, hs, errBody "Server misconfigured: missing GEMINI_API_KEY"⟩, .noApiKey, none⟩
  else if requiredToken env ≠ "" ∧ reqToken req ≠ requiredToken env then
    ⟨⟨401, hs, errBody "Unauthorized"⟩, .badToken, none⟩
  else
    match coerceBody parse req.body with
    | none => ⟨⟨400, hs, errBody "Invalid JSON"⟩, .badJson, none⟩
    | some body =>
        let body := sanitize body
        let ureq := mkUpstreamRequest imageEndpoint (env.GEMINI_API_KEY.getD "") body
        match fetchResult with
        | .success status ct text =>
            ⟨⟨status, imageRelayHeaders env req ct, text⟩, .relay, some ureq⟩
        | .failure e =>
            ⟨⟨502, imageFailHeaders env req, fetchFailBody e⟩, .fetchFail, some ureq⟩

/-! ## Header bookkeeping lemmas -/

/-- A key filtered out of an association list is never found. -/
theorem find?_filter_ne {α : Type} (hs : List (String × α)) (k : String) :
    (hs.filter (fun p => p.1 != k)).find? (fun p => p.1 == k) = none := by
  rw [List.find?_eq_none]
  intro p hp
  have h := List.of_mem_filter hp
  simp only [bne_iff_ne, ne_eq] at h
  simp [h]

/-- Filtering a key out does not disturb lookups of a different key. -/
theorem find?_filter_of_ne {α : Type} (hs : List (String × α)) (k k' : String) (h : k' ≠ k) :
    (hs.filter (fun p => p.1 != k)).find? (fun p => p.1 == k') =
      hs.find? (fun p => p.1 == k') := by
  induction hs with
  | nil => rfl
  | cons a hs ih =>
      by_cases ha : a.1 = k
      · have h2 : (a.1 == k') = false := by
          rw [beq_eq_false_iff_ne, ha]
          exact fun hh => h hh.symm
        rw [List.filter_cons, if_neg (by simp [ha])]
        simp only [List.find?_cons, h2, ih]
      · rw [List.filter_cons, if_pos (by simp [ha])]
        simp only [List.find?_cons]
        cases hq : (a.1 == k') with
        | true => rfl
        | false => exact ih

/-- `getHeader` after `setHeader`: the new value at the written key, the old
lookup elsewhere. -/
theorem getHeader_setHeader (hs : List (String × String)) (k v k' : String) :
    getHeader (setHeader hs k v) k' = if k' = k then some v else getHeader hs k' := by
  by_cases h : k' = k
  · subst h
    unfold getHeader setHeader
    rw [List.find?_append, find?_filter_ne]
    simp [List.find?_cons]
  · rw [if_neg h]
    unfold getHeader setHeader
    rw [List.find?_append, find?_filter_of_ne hs k k' h]
    cases hfind : hs.find? (fun p => p.1 == k') with
    | none =>
        have h2 : (k == k') = false := by
          rw [beq_eq_false_iff_ne]
          exact fun hh => h hh.symm
        simp [List.find?_cons, h2]
    | some p => simp

/-! ## CORS header characterizations -/

/-- The text variant's entry headers always carry the fixed methods header. -/
theorem corsText_methods (env : Env) (req : Request) :
    getHeader (corsText env req) "Access-Control-Allow-Methods" = some "POST, OPTIONS" := by
  simp only [corsText]
  split <;> simp [getHeader_setHeader]

/-- The text variant's entry headers always carry the fixed allow-headers
header. -/
theorem corsText_allowHeaders (env : Env) (req : Request) :
    getHeader (corsText env req) "Access-Control-Allow-Headers" =
      some "Content-Type, X-Client-Token" := by
  simp only [corsText]
  split <;> simp [getHeader_setHeader]

/-- `getHeader` on the empty header list. -/
theorem getHeader_nil (k : String) : getHeader [] k = none := rfl

/-- The text variant never writes a `Vary` header. -/
theorem corsText_vary (env : Env) (req : Request) :
    getHeader (corsText env req) "Vary" = none := by
  simp only [corsText]
  split <;> simp [getHeader_setHeader, getHeader_nil]

/-- The text variant's allow-origin header is present exactly when
`allowOriginText` is non-empty. -/
theorem corsText_acao (env : Env) (req : Request) :
    getHeader (corsText env req) "Access-Control-Allow-Origin" =
      if allowOriginText env (reqOrigin req) = "" then none
      else some (allowOriginText env (reqOrigin req)) := by
  simp only [corsText]
  by_cases h : allowOriginText env (reqOrigin req) = "" <;>
    simp [getHeader_setHeader, getHeader_nil, h]

/-- `setCors` always writes the fixed methods header. -/
theorem setCors_methods (hs : List (String × String)) (env : Env) (o : Option String) :
    getHeader (setCors hs env o) "Access-Control-Allow-Methods" = some "POST, OPTIONS" := by
  simp only [setCors]
  simp [getHeader_setHeader]

/-- `setCors` always writes the fixed allow-headers header. -/
theorem setCors_allowHeaders (hs : List (String × String)) (env : Env) (o : Option String) :
    getHeader (setCors hs env o) "Access-Control-Allow-Headers" =
      some "Content-Type, X-Client-Token" := by
  simp only [setCors]
  simp [getHeader_setHeader]

/-- `setCors` always writes `Vary: Origin`. -/
theorem setCors_vary (hs : List (String × String)) (env : Env) (o : Option String) :
    getHeader (setCors hs env o) "Vary" = some "Origin" := by
  simp only [setCors]
  simp [getHeader_setHeader]

/-- `setCors` writes the allow-origin header exactly when `allowOriginImage`
is non-empty; otherwise a previously present value survives. -/
theorem setCors_acao (hs : List (String × String)) (env : Env) (o : Option String) :
    getHeader (setCors hs env o) "Access-Control-Allow-Origin" =
      if allowOriginImage env (o.getD "") = "" then
        getHeader hs "Access-Control-Allow-Origin"
      else some (allowOriginImage env (o.getD "")) := by
  by_cases h : allowOriginImage env (o.getD "") = "" <;>
    simp [setCors, getHeader_setHeader, h]

/-- `setCors` does not touch the `Content-Type` header. -/
theorem setCors_contentType (hs : List (String × String)) (env : Env) (o : Option String) :
    getHeader (setCors hs env o) "Content-Type" = getHeader hs "Content-Type" := by
  by_cases h : allowOriginImage env (o.getD "") = "" <;>
    simp [setCors, getHeader_setHeader, h]

/-- Relay headers of the text variant keep the fixed methods header. -/
theorem textRelayHeaders_methods (env : Env) (req : Request) (ct : Option String) :
    getHeader (textRelayHeaders env req ct) "Access-Control-Allow-Methods" =
      some "POST, OPTIONS" := by
  simp only [textRelayHeaders]
  split <;> simp [getHeader_setHeader, corsText_methods]

/-- Relay headers of the text variant keep the fixed allow-headers header. -/
theorem textRelayHeaders_allowHeaders (env : Env) (req : Request) (ct : Option String) :
    getHeader (textRelayHeaders env req ct) "Access-Control-Allow-Headers" =
      some "Content-Type, X-Client-Token" := by
  simp only [textRelayHeaders]
  split <;> simp [getHeader_setHeader, corsText_allowHeaders]

/-- Relay headers of the text variant still have no `Vary` header. -/
theorem textRelayHeaders_vary (env : Env) (req : Request) (ct : Option String) :
    getHeader (textRelayHeaders env req ct) "Vary" = none := by
  simp only [textRelayHeaders]
  split <;> simp [getHeader_setHeader, corsText_vary]

/-- Relay headers of the text variant: allow-origin present iff
`allowOriginText` is non-empty. -/
theorem textRelayHeaders_acao (env : Env) (req : Request) (ct : Option String) :
    getHeader (textRelayHeaders env req ct) "Access-Control-Allow-Origin" =
      if allowOriginText env (reqOrigin req) = "" then none
      else some (allowOriginText env (reqOrigin req)) := by
  by_cases h : allowOriginText env (reqOrigin req) = "" <;>
    simp [textRelayHeaders, getHeader_setHeader, corsText_acao, h]

/-- Relay headers of the text variant carry the relayed `Content-Type`. -/
theorem textRelayHeaders_contentType (env : Env) (req : Request) (ct : Option String) :
    getHeader (textRelayHeaders env req ct) "Content-Type" = some (relayContentType ct) := by
  simp only [textRelayHeaders]
  split <;> simp [getHeader_setHeader]

/-- Relay headers of the image-preview variant: allow-origin present iff
`allowOriginImage` is non-empty. -/
theorem imageRelayHeaders_acao (env : Env) (req : Request) (ct : Option String) :
    getHeader (imageRelayHeaders env req ct) "Access-Control-Allow-Origin" =
      if allowOriginImage env (reqOrigin req) = "" then none
      else some (allowOriginImage env (reqOrigin req)) := by
  have horig : req.origin.getD "" = reqOrigin req := rfl
  by_cases h : allowOriginImage env (reqOrigin req) = "" <;>
    simp [imageRelayHeaders, setCors_acao, getHeader_setHeader, getHeader_nil, horig, h]

/-- Relay headers of the image-preview variant carry the relayed
`Content-Type` (the second `setCors` does not overwrite it). -/
theorem imageRelayHeaders_contentType (env : Env) (req : Request) (ct : Option String) :
    getHeader (imageRelayHeaders env req ct) "Content-Type" = some (relayContentType ct) := by
  simp [imageRelayHeaders, setCors_contentType, getHeader_setHeader]

/-- Catch-branch headers of the image-preview variant: allow-origin present
iff `allowOriginImage` is non-empty. -/
theorem imageFailHeaders_acao (env : Env) (req : Request) :
    getHeader (imageFailHeaders env req) "Access-Control-Allow-Origin" =
      if allowOriginImage env (reqOrigin req) = "" then none
      else some (allowOriginImage env (reqOrigin req)) := by
  have horig : req.origin.getD "" = reqOrigin req := rfl
  by_cases h : allowOriginImage env (reqOrigin req) = "" <;>
    simp [imageFailHeaders, setCors_acao, getHeader_setHeader, getHeader_nil, horig, h]

/-! ## Branch characterizations of the two handlers -/

/-- Text variant, `OPTIONS` branch. -/
theorem textHandler_options (env : Env) (req : Request) (parse : String → Option Json)
    (fr : FetchOutcome) (hm : req.method = "OPTIONS") :
    textHandler env req parse fr = ⟨⟨204, corsText env req, ""⟩, .preflight, none⟩ := by
  simp [textHandler, hm]

/-- Text variant, non-`POST` branch. -/
theorem textHandler_badMethod (env : Env) (req : Request) (parse : String → Option Json)
    (fr : FetchOutcome) (hm1 : req.method ≠ "OPTIONS") (hm2 : req.method ≠ "POST") :
    textHandler env req parse fr =
      ⟨⟨405, corsText env req, errBody "Only POST allowed"⟩, .badMethod, none⟩ := by
  simp [textHandler, hm1, hm2]

/-- Text variant, missing-key branch. -/
theorem textHandler_noApiKey (env : Env) (req : Request) (parse : String → Option Json)
    (fr : FetchOutcome) (hm : req.method = "POST") (hk : env.GEMINI_API_KEY.getD "" = "") :
    textHandler env req parse fr =
      ⟨⟨500, corsText env req, errBody "Server misconfigured: missing GEMINI_API_KEY"⟩,
        .noApiKey, none⟩ := by
  simp [textHandler, hm, hk]

/-- Text variant, failed-token branch. -/
theorem textHandler_badToken (env : Env) (req : Request) (parse : String → Option Json)
    (fr : FetchOutcome) (hm : req.method = "POST") (hk : env.GEMINI_API_KEY.getD "" ≠ "")
    (ht1 : requiredToken env ≠ "") (ht2 : reqToken req ≠ requiredToken env) :
    textHandler env req parse fr =
      ⟨⟨401, corsText env req, errBody "Unauthorized"⟩, .badToken, none⟩ := by
  simp [textHandler, hm, hk, ht1, ht2]

/-- Text variant, invalid-JSON branch. -/
theorem textHandler_badJson (env : Env) (req : Request) (parse : String → Option Json)
    (fr : FetchOutcome) (hm : req.method = "POST") (hk : env.GEMINI_API_KEY.getD "" ≠ "")
    (ht : ¬(requiredToken env ≠ "" ∧ reqToken req ≠ requiredToken env))
    (hb : coerceBody parse req.body = none) :
    textHandler env req parse fr =
      ⟨⟨400, corsText env req, errBody "Invalid JSON"⟩, .badJson, none⟩ := by
  simp [textHandler, hm, hk, ht, hb]

/-- Text variant, relay branch. -/
theorem textHandler_relay (env : Env) (req : Request) (parse : String → Option Json)
    (status : Nat) (ct : Option String) (text : String) (b : Json)
    (hm : req.method = "POST") (hk : env.GEMINI_API_KEY.getD "" ≠ "")
    (ht : ¬(requiredToken env ≠ "" ∧ reqToken req ≠ requiredToken env))
    (hb : coerceBody parse req.body = some b) :
    textHandler env req parse (.success status ct text) =
      ⟨⟨status, textRelayHeaders env req ct, text⟩, .relay,
        some (mkUpstreamRequest textEndpoint (env.GEMINI_API_KEY.getD "") (sanitize b))⟩ := by
  simp [textHandler, hm, hk, ht, hb]

/-- Text variant, catch branch. -/
theorem textHandler_fetchFail (env : Env) (req : Request) (parse : String → Option Json)
    (e : JsError) (b : Json)
    (hm : req.method = "POST") (hk : env.GEMINI_API_KEY.getD "" ≠ "")
    (ht : ¬(requiredToken env ≠ "" ∧ reqToken req ≠ requiredToken env))
    (hb : coerceBody parse req.body = some b) :
    textHandler env req parse (.failure e) =
      ⟨⟨502, corsText env req, fetchFailBody e⟩, .fetchFail,
        some (mkUpstreamRequest textEndpoint (env.GEMINI_API_KEY.getD "") (sanitize b))⟩ := by
  simp [textHandler, hm, hk, ht, hb]

/-- Image-preview variant, `OPTIONS` branch. -/
theorem imageHandler_options (env : Env) (req : Request) (parse : String → Option Json)
    (fr : FetchOutcome) (hm : req.method = "OPTIONS") :
    imageHandler env req parse fr =
      ⟨⟨204, setCors [] env req.origin, ""⟩, .preflight, none⟩ := by
  simp [imageHandler, hm]

/-- Image-preview variant, non-`POST` branch. -/
theorem imageHandler_badMethod (env : Env) (req : Request) (parse : String → Option Json)
    (fr : FetchOutcome) (hm1 : req.method ≠ "OPTIONS") (hm2 : req.method ≠ "POST") :
    imageHandler env req parse fr =
      ⟨⟨405, setCors [] env req.origin, errBody "Only POST allowed"⟩, .badMethod, none⟩ := by
  simp [imageHandler, hm1, hm2]

/-- Image-preview variant, missing-key branch. -/
theorem imageHandler_noApiKey (env : Env) (req : Request) (parse : String → Option Json)
    (fr : FetchOutcome) (hm : req.method = "POST") (hk : env.GEMINI_API_KEY.getD "" = "") :
    imageHandler env req parse fr =
      ⟨⟨500, setCors [] env req.origin,
          errBody "Server misconfigured: missing GEMINI_API_KEY"⟩, .noApiKey, none⟩ := by
  simp [imageHandler, hm, hk]

/-- Image-preview variant, failed-token branch. -/
theorem imageHandler_badToken (env : Env) (req : Request) (parse : String → Option Json)
    (fr : FetchOutcome) (hm : req.method = "POST") (hk : env.GEMINI_API_KEY.getD "" ≠ "")
    (ht1 : requiredToken env ≠ "") (ht2 : reqToken req ≠ requiredToken env) :
    imageHandler env req parse fr =
      ⟨⟨401, setCors [] env req.origin, errBody "Unauthorized"⟩, .badToken, none⟩ := by
  simp [imageHandler, hm, hk, ht1, ht2]

/-- Image-preview variant, invalid-JSON branch. -/
theorem imageHandler_badJson (env : Env) (req : Request) (parse : String → Option Json)
    (fr : FetchOutcome) (hm : req.method = "POST") (hk : env.GEMINI_API_KEY.getD "" ≠ "")
    (ht : ¬(requiredToken env ≠ "" ∧ reqToken req ≠ requiredToken env))
    (hb : coerceBody parse req.body = none) :
    imageHandler env req parse fr =
      ⟨⟨400, setCors [] env req.origin, errBody "Invalid JSON"⟩, .badJson, none⟩ := by
  simp [imageHandler, hm, hk, ht, hb]

/-- Image-preview variant, relay branch. -/
theorem imageHandler_relay (env : Env) (req : Request) (parse : String → Option Json)
    (status : Nat) (ct : Option String) (text : String) (b : Json)
    (hm : req.method = "POST") (hk : env.GEMINI_API_KEY.getD "" ≠ "")
    (ht : ¬(requiredToken env ≠ "" ∧ reqToken req ≠ requiredToken env))
    (hb : coerceBody parse req.body = some b) :
    imageHandler env req parse (.success status ct text) =
      ⟨⟨status, imageRelayHeaders env req ct, text⟩, .relay,
        some (mkUpstreamRequest imageEndpoint (env.GEMINI_API_KEY.getD "") (sanitize b))⟩ := by
  simp [imageHandler, hm, hk, ht, hb]

/-- Image-preview variant, catch branch. -/
theorem imageHandler_fetchFail (env : Env) (req : Request) (parse : String → Option Json)
    (e : JsError) (b : Json)
    (hm : req.method = "POST") (hk : env.GEMINI_API_KEY.getD "" ≠ "")
    (ht : ¬(requiredToken env ≠ "" ∧ reqToken req ≠ requiredToken env))
    (hb : coerceBody parse req.body = some b) :
    imageHandler env req parse (.failure e) =
      ⟨⟨502, imageFailHeaders env req, fetchFailBody e⟩, .fetchFail,
        some (mkUpstreamRequest imageEndpoint (env.GEMINI_API_KEY.getD "") (sanitize b))⟩ := by
  simp [imageHandler, hm, hk, ht, hb]

/-- Every text-variant response's headers are the entry CORS headers or the
relay headers. -/
theorem textHandler_headers_cases (env : Env) (req : Request) (parse : String → Option Json)
    (fr : FetchOutcome) :
    (textHandler env req parse fr).response.headers = corsText env req ∨
    ∃ ct, (textHandler env req parse fr).response.headers = textRelayHeaders env req ct := by
  by_cases h1 : req.method = "OPTIONS"
  · rw [textHandler_options env req parse fr h1]; left; rfl
  · by_cases h2 : req.method = "POST"
    · by_cases h3 : env.GEMINI_API_KEY.getD "" = ""
      · rw [textHandler_noApiKey env req parse fr h2 h3]; left; rfl
      · by_cases h4 : requiredToken env ≠ "" ∧ reqToken req ≠ requiredToken env
        · rw [textHandler_badToken env req parse fr h2 h3 h4.1 h4.2]; left; rfl
        · cases hb : coerceBody parse req.body with
          | none => rw [textHandler_badJson env req parse fr h2 h3 h4 hb]; left; rfl
          | some b =>
              cases fr with
              | success st ct text =>
                  rw [textHandler_relay env req parse st ct text b h2 h3 h4 hb]
                  right; exact ⟨ct, rfl⟩
              | failure e =>
                  rw [textHandler_fetchFail env req parse e b h2 h3 h4 hb]; left; rfl
    · rw [textHandler_badMethod env req parse fr h1 h2]; left; rfl

/-- Every image-variant response's headers come from `setCors` on the empty
list, the relay headers, or the catch-branch headers. -/
theorem imageHandler_headers_cases (env : Env) (req : Request) (parse : String → Option Json)
    (fr : FetchOutcome) :
    (imageHandler env req parse fr).response.headers = setCors [] env req.origin ∨
    (∃ ct, (imageHandler env req parse fr).response.headers = imageRelayHeaders env req ct) ∨
    (imageHandler env req parse fr).response.headers = imageFailHeaders env req := by
  by_cases h1 : req.method = "OPTIONS"
  · rw [imageHandler_options env req parse fr h1]; left; rfl
  · by_cases h2 : req.method = "POST"
    · by_cases h3 : env.GEMINI_API_KEY.getD "" = ""
      · rw [imageHandler_noApiKey env req parse fr h2 h3]; left; rfl
      · by_cases h4 : requiredToken env ≠ "" ∧ reqToken req ≠ requiredToken env
        · rw [imageHandler_badToken env req parse fr h2 h3 h4.1 h4.2]; left; rfl
        · cases hb : coerceBody parse req.body with
          | none => rw [imageHandler_badJson env req parse fr h2 h3 h4 hb]; left; rfl
          | some b =>
              cases fr with
              | success st ct text =>
                  rw [imageHandler_relay env req parse st ct text b h2 h3 h4 hb]
                  right; left; exact ⟨ct, rfl⟩
              | failure e =>
                  rw [imageHandler_fetchFail env req parse e b h2 h3 h4 hb]
                  right; right; rfl
    · rw [imageHandler_badMethod env req parse fr h1 h2]; left; rfl

/-! ## Allow-origin computations -/

/-- The image-preview variant's allow-origin value for the literal origin
`"null"`: always allowed, whatever the allow-list. -/
theorem allowOriginImage_null (env : Env) : allowOriginImage env "null" = "null" := by
  simp [allowOriginImage]

/-- The text variant's allow-origin value is empty when the allow-list is
non-empty and the origin is not a member. -/
theorem allowOriginText_denied (env : Env) (o : String)
    (hne : getAllowedOrigins env.ALLOWED_ORIGINS ≠ [])
    (hmem : o ∉ getAllowedOrigins env.ALLOWED_ORIGINS) :
    allowOriginText env o = "" := by
  have h1 : (getAllowedOrigins env.ALLOWED_ORIGINS).isEmpty = false := by
    simp [List.isEmpty_iff, hne]
  simp [allowOriginText, h1, hmem]

/-- The image-preview variant's allow-origin value is empty when the
allow-list is non-empty and the origin is neither a member nor `"null"`. -/
theorem allowOriginImage_denied (env : Env) (o : String)
    (hne : parseAllowed env.ALLOWED_ORIGINS ≠ [])
    (hmem : o ∉ parseAllowed env.ALLOWED_ORIGINS) (hnull : o ≠ "null") :
    allowOriginImage env o = "" := by
  have h1 : (parseAllowed env.ALLOWED_ORIGINS).isEmpty = false := by
    simp [List.isEmpty_iff, hne]
  simp [allowOriginImage, h1, hmem, hnull]

/-! ## Sanitizer lemmas -/

/-- Lookup in the object produced by the sanitizer's conditional update of
the `generationConfig` entry. -/
theorem get_obj_mapUpdate (fields : List (String × Json)) (k : String) :
    (Json.obj (fields.map (fun p =>
        if p.1 == "generationConfig" then
          (p.1, p.2.deleteField "response_mime_type") else p))).get k =
      if k = "generationConfig" then
        ((Json.obj fields).get k).map (fun j => j.deleteField "response_mime_type")
      else (Json.obj fields).get k := by
  have hpred : ((fun p : String × Json => p.1 == k) ∘
      (fun p : String × Json => if p.1 == "generationConfig" then
        (p.1, p.2.deleteField "response_mime_type") else p)) =
      (fun p : String × Json => p.1 == k) := by
    funext p
    by_cases h : p.1 = "generationConfig" <;> simp [h]
  simp only [Json.get, List.find?_map, hpred]
  cases hfind : fields.find? (fun p => p.1 == k) with
  | none => simp [hfind]
  | some a =>
      have hk : a.1 = k := by
        have := List.find?_some hfind
        simpa using this
      by_cases hag : a.1 = "generationConfig"
      · have hkg : k = "generationConfig" := hk ▸ hag
        simp [hfind, hag, hkg]
      · have hkg : ¬(k = "generationConfig") := fun h => hag (hk.symm ▸ h)
        simp [hfind, hag, hkg]

/-- Deleting a key from an object removes it. -/
theorem get_deleteField_self (fields : List (String × Json)) (k : String) :
    (Json.deleteField (Json.obj fields) k).get k = none := by
  simp [Json.deleteField, Json.get, find?_filter_ne]

/-- Deleting a key from an object leaves the other keys unchanged. -/
theorem get_deleteField_ne (fields : List (String × Json)) (k k' : String) (h : k' ≠ k) :
    (Json.deleteField (Json.obj fields) k).get k' = (Json.obj fields).get k' := by
  simp [Json.deleteField, Json.get, find?_filter_of_ne fields k k' h]

/-- When the `generationConfig.response_mime_type` chain misses, the
sanitizer is the identity. -/
theorem sanitize_noField (body : Json)
    (h : (body.get "generationConfig").bind (fun gc => gc.get "response_mime_type") = none) :
    sanitize body = body := by
  unfold sanitize
  rw [h]

/-- When the field is present but falsy, the sanitizer leaves the body
untouched (the `if` guard does not fire). -/
theorem sanitize_falsy (body : Json) (v : Json)
    (h : (body.get "generationConfig").bind (fun gc => gc.get "response_mime_type") = some v)
    (hv : v.truthy = false) :
    sanitize body = body := by
  unfold sanitize
  rw [h]
  simp [hv]

/-- When the field is present and truthy, the sanitizer removes exactly that
field: the chain misses afterwards, every other top-level field is
unchanged, and every other `generationConfig` field is unchanged. -/
theorem sanitize_truthy (body : Json) (v : Json)
    (h : (body.get "generationConfig").bind (fun gc => gc.get "response_mime_type") = some v)
    (hv : v.truthy = true) :
    ((sanitize body).get "generationConfig").bind
        (fun gc => gc.get "response_mime_type") = none ∧
    (∀ k, k ≠ "generationConfig" → (sanitize body).get k = body.get k) ∧
    (∀ k, k ≠ "response_mime_type" →
      ((sanitize body).get "generationConfig").bind (fun gc => gc.get k) =
        (body.get "generationConfig").bind (fun gc => gc.get k)) := by
  obtain ⟨gc, hgc, hrm⟩ := Option.bind_eq_some.mp h
  cases body with
  | null => exact absurd hgc (by simp [Json.get])
  | bool b => exact absurd hgc (by simp [Json.get])
  | num n => exact absurd hgc (by simp [Json.get])
  | str s => exact absurd hgc (by simp [Json.get])
  | arr elems => exact absurd hgc (by simp [Json.get])
  | obj fields =>
      cases gc with
      | null => exact absurd hrm (by simp [Json.get])
      | bool b => exact absurd hrm (by simp [Json.get])
      | num n => exact absurd hrm (by simp [Json.get])
      | str s => exact absurd hrm (by simp [Json.get])
      | arr elems => exact absurd hrm (by simp [Json.get])
      | obj gfields =>
          have hsan : sanitize (Json.obj fields) =
              Json.obj (fields.map (fun p =>
                if p.1 == "generationConfig" then
                  (p.1, p.2.deleteField "response_mime_type") else p)) := by
            unfold sanitize
            rw [h]
            simp [hv]
          refine ⟨?_, ?_, ?_⟩
          · rw [hsan, get_obj_mapUpdate, if_pos rfl, hgc]
            simp [get_deleteField_self]
          · intro k hk
            rw [hsan, get_obj_mapUpdate, if_neg hk]
          · intro k hk
            rw [hsan, get_obj_mapUpdate, if_pos rfl, hgc]
            simp [get_deleteField_ne _ _ _ hk]

/-! ## Claim C1: the null-origin exception -/

/-- C1 counterexample: on the text variant, with allow-list
`["https://example.com"]` and request origin `"null"`, no
`Access-Control-Allow-Origin` header is emitted, refuting the claim that
the null-origin exception applies on both handler variants. -/
theorem c1_text_null_origin_denied :
    getHeader ((textHandler ⟨some "https://example.com", some "k", none⟩
        ⟨"OPTIONS", some "null", none, .undef⟩ (fun _ => none)
        (.success 200 none "")).response.headers) "Access-Control-Allow-Origin" = none := by
  rw [textHandler_options _ _ _ _ rfl, corsText_acao]
  have h : allowOriginText ⟨some "https://example.com", some "k", none⟩
      (reqOrigin ⟨"OPTIONS", some "null", none, .undef⟩) = "" :=
    allowOriginText_denied _ _ (by decide) (by decide)
  rw [h]
  simp

/-- C1 (amended): with a non-empty allow-list and request origin `"null"`,
the image-preview variant emits `Access-Control-Allow-Origin: null` on every
response, while the text variant emits no allow-origin header unless
`"null"` is itself a member of the allow-list. -/
theorem c1_null_origin_exception (env : Env) (req : Request)
    (parse : String → Option Json) (fr : FetchOutcome)
    (hne : getAllowedOrigins env.ALLOWED_ORIGINS ≠ [])
    (ho : req.origin = some "null") :
    getHeader ((imageHandler env req parse fr).response.headers)
        "Access-Control-Allow-Origin" = some "null" ∧
    ("null" ∉ getAllowedOrigins env.ALLOWED_ORIGINS →
      getHeader ((textHandler env req parse fr).response.headers)
        "Access-Control-Allow-Origin" = none) := by
  have horig : reqOrigin req = "null" := by simp [reqOrigin, ho]
  have hro : req.origin.getD "" = reqOrigin req := rfl
  have haoi : allowOriginImage env (reqOrigin req) = "null" := by
    rw [horig]; exact allowOriginImage_null env
  constructor
  · rcases imageHandler_headers_cases env req parse fr with h | ⟨ct, h⟩ | h
    · rw [h, setCors_acao, hro, haoi]; simp
    · rw [h, imageRelayHeaders_acao, haoi]; simp
    · rw [h, imageFailHeaders_acao, haoi]; simp
  · intro hmem
    have haot : allowOriginText env (reqOrigin req) = "" := by
      rw [horig]; exact allowOriginText_denied env "null" hne hmem
    rcases textHandler_headers_cases env req parse fr with h | ⟨ct, h⟩
    · rw [h, corsText_acao, haot]; simp
    · rw [h, textRelayHeaders_acao, haot]; simp

/-- C1 witness: concrete run of the amended claim. -/
theorem c1_null_origin_exception_witness :
    getHeader ((imageHandler ⟨some "https://example.com", some "k", none⟩
        ⟨"POST", some "null", none, .undef⟩ (fun _ => some (Json.obj []))
        (.success 200 none "")).response.headers) "Access-Control-Allow-Origin" =
      some "null" ∧
    getHeader ((textHandler ⟨some "https://example.com", some "k", none⟩
        ⟨"POST", some "null", none, .undef⟩ (fun _ => some (Json.obj []))
        (.success 200 none "")).response.headers) "Access-Control-Allow-Origin" =
      none :=
  ⟨(c1_null_origin_exception _ _ _ _ (by decide) rfl).1,
   (c1_null_origin_exception _ _ _ _ (by decide) rfl).2 (by decide)⟩

/-! ## Claim C2: the body sanitizer -/

/-- C2 counterexample: a present but falsy (empty-string)
`generationConfig.response_mime_type` is NOT removed; the body reaches the
upstream request with the field still present. -/
theorem c2_falsy_mime_kept :
    ((textHandler ⟨none, some "k", none⟩
        ⟨"POST", none, none,
          .json (Json.obj [("generationConfig",
            Json.obj [("response_mime_type", Json.str "")])])⟩
        (fun _ => none) (.success 200 none "")).upstream).map
        (fun u => u.bodyJson) =
      some (Json.obj [("generationConfig",
        Json.obj [("response_mime_type", Json.str "")])]) := rfl

/-- C2 (amended): the sanitizer removes
`generationConfig.response_mime_type` when it is present with a truthy
value, leaving every other field (top-level and inside `generationConfig`)
unchanged; when the field is absent, its parent is absent, or its value is
falsy (for example the empty string), the body is passed through entirely
unchanged; the handler forwards exactly the sanitized body upstream. -/
theorem c2_sanitizer (body : Json) :
    ((body.get "generationConfig").bind
        (fun gc => gc.get "response_mime_type") = none → sanitize body = body) ∧
    (∀ v, (body.get "generationConfig").bind
        (fun gc => gc.get "response_mime_type") = some v →
      v.truthy = false → sanitize body = body) ∧
    (∀ v, (body.get "generationConfig").bind
        (fun gc => gc.get "response_mime_type") = some v →
      v.truthy = true →
      ((sanitize body).get "generationConfig").bind
          (fun gc => gc.get "response_mime_type") = none ∧
      (∀ k, k ≠ "generationConfig" → (sanitize body).get k = body.get k) ∧
      (∀ k, k ≠ "response_mime_type" →
        ((sanitize body).get "generationConfig").bind (fun gc => gc.get k) =
          (body.get "generationConfig").bind (fun gc => gc.get k))) ∧
    (∀ env req parse fr b, req.method = "POST" → env.GEMINI_API_KEY.getD "" ≠ "" →
      ¬(requiredToken env ≠ "" ∧ reqToken req ≠ requiredToken env) →
      coerceBody parse req.body = some b →
      ((textHandler env req parse fr).upstream).map (fun u => u.bodyJson) =
        some (sanitize b) ∧
      ((imageHandler env req parse fr).upstream).map (fun u => u.bodyJson) =
        some (sanitize b)) := by
  refine ⟨sanitize_noField body, sanitize_falsy body, sanitize_truthy body,
    fun env req parse fr b hm hk ht hb => ?_⟩
  cases fr with
  | success st ct text =>
      rw [textHandler_relay env req parse st ct text b hm hk ht hb,
        imageHandler_relay env req parse st ct text b hm hk ht hb]
      exact ⟨rfl, rfl⟩
  | failure e =>
      rw [textHandler_fetchFail env req parse e b hm hk ht hb,
        imageHandler_fetchFail env req parse e b hm hk ht hb]
      exact ⟨rfl, rfl⟩

/-- C2 witness: a truthy `response_mime_type` is removed while the sibling
field survives. -/
theorem c2_sanitizer_witness :
    ((sanitize (Json.obj [("generationConfig",
        Json.obj [("response_mime_type", Json.str "text/plain"),
          ("temperature", Json.num 1)]), ("contents", Json.arr [])])).get
        "generationConfig").bind (fun gc => gc.get "response_mime_type") = none ∧
    (sanitize (Json.obj [("generationConfig",
        Json.obj [("response_mime_type", Json.str "text/plain"),
          ("temperature", Json.num 1)]), ("contents", Json.arr [])])).get
        "contents" =
      some (Json.arr []) := by
  have h := (c2_sanitizer (Json.obj [("generationConfig",
      Json.obj [("response_mime_type", Json.str "text/plain"),
        ("temperature", Json.num 1)]), ("contents", Json.arr [])])).2.2.1
      (Json.str "text/plain") rfl rfl
  exact ⟨h.1, (h.2.1 "contents" (by decide)).trans rfl⟩

/-! ## Claim C3: CORS headers on every path -/

/-- C3 counterexample: the text variant emits no `Vary` header at all. -/
theorem c3_text_no_vary :
    getHeader ((textHandler ⟨none, some "k", none⟩ ⟨"OPTIONS", none, none, .undef⟩
        (fun _ => none) (.success 200 none "")).response.headers) "Vary" = none := by
  rw [textHandler_options _ _ _ _ rfl]
  show getHeader (corsText ⟨none, some "k", none⟩ ⟨"OPTIONS", none, none, .undef⟩)
    "Vary" = none
  exact corsText_vary _ _

/-- C3 (amended): every response of both variants, on every code path,
carries `Access-Control-Allow-Methods: POST, OPTIONS` and
`Access-Control-Allow-Headers: Content-Type, X-Client-Token`; every
image-preview-variant response also carries `Vary: Origin`, while the text
variant never emits a `Vary` header. -/
theorem c3_cors_always (env : Env) (req : Request) (parse : String → Option Json)
    (fr : FetchOutcome) :
    getHeader ((textHandler env req parse fr).response.headers)
        "Access-Control-Allow-Methods" = some "POST, OPTIONS" ∧
    getHeader ((textHandler env req parse fr).response.headers)
        "Access-Control-Allow-Headers" = some "Content-Type, X-Client-Token" ∧
    getHeader ((textHandler env req parse fr).response.headers) "Vary" = none ∧
    getHeader ((imageHandler env req parse fr).response.headers)
        "Access-Control-Allow-Methods" = some "POST, OPTIONS" ∧
    getHeader ((imageHandler env req parse fr).response.headers)
        "Access-Control-Allow-Headers" = some "Content-Type, X-Client-Token" ∧
    getHeader ((imageHandler env req parse fr).response.headers) "Vary" =
      some "Origin" := by
  obtain ht := textHandler_headers_cases env req parse fr
  obtain hi := imageHandler_headers_cases env req parse fr
  refine ⟨?_, ?_, ?_, ?_, ?_, ?_⟩
  · rcases ht with h | ⟨ct, h⟩
    · rw [h]; exact corsText_methods env req
    · rw [h]; exact textRelayHeaders_methods env req ct
  · rcases ht with h | ⟨ct, h⟩
    · rw [h]; exact corsText_allowHeaders env req
    · rw [h]; exact textRelayHeaders_allowHeaders env req ct
  · rcases ht with h | ⟨ct, h⟩
    · rw [h]; exact corsText_vary env req
    · rw [h]; exact textRelayHeaders_vary env req ct
  · rcases hi with h | ⟨ct, h⟩ | h
    · rw [h]; exact setCors_methods [] env req.origin
    · rw [h]; unfold imageRelayHeaders; exact setCors_methods _ env req.origin
    · rw [h]; unfold imageFailHeaders; exact setCors_methods _ env req.origin
  · rcases hi with h | ⟨ct, h⟩ | h
    · rw [h]; exact setCors_allowHeaders [] env req.origin
    · rw [h]; unfold imageRelayHeaders; exact setCors_allowHeaders _ env req.origin
    · rw [h]; unfold imageFailHeaders; exact setCors_allowHeaders _ env req.origin
  · rcases hi with h | ⟨ct, h⟩ | h
    · rw [h]; exact setCors_vary [] env req.origin
    · rw [h]; unfold imageRelayHeaders; exact setCors_vary _ env req.origin
    · rw [h]; unfold imageFailHeaders; exact setCors_vary _ env req.origin

/-! ## Claim C4: transparent upstream relay -/

/-- C4 counterexample: an upstream response whose `Content-Type` header is
present but empty is relayed with `Content-Type: application/json`, not with
the upstream's own (empty) value. -/
theorem c4_empty_content_type_defaulted :
    getHeader ((textHandler ⟨none, some "k", none⟩
        ⟨"POST", none, none, .json (Json.obj [])⟩ (fun _ => none)
        (.success 200 (some "") "ok")).response.headers) "Content-Type" =
      some "application/json" ∧ ("application/json" : String) ≠ "" :=
  ⟨rfl, by decide⟩

/-- C4 (amended): on every admitted POST whose upstream connection succeeds,
both variants relay the upstream status code and body text verbatim, with
`Content-Type` equal to the upstream's value when that value is non-empty,
and `application/json` when the upstream supplied none or an empty value. -/
theorem c4_relay_transparent (env : Env) (req : Request) (parse : String → Option Json)
    (st : Nat) (ct : Option String) (text : String) (b : Json)
    (hm : req.method = "POST") (hk : env.GEMINI_API_KEY.getD "" ≠ "")
    (ht : ¬(requiredToken env ≠ "" ∧ reqToken req ≠ requiredToken env))
    (hb : coerceBody parse req.body = some b) :
    ((textHandler env req parse (.success st ct text)).response.status = st ∧
     (textHandler env req parse (.success st ct text)).response.body = text ∧
     getHeader ((textHandler env req parse (.success st ct text)).response.headers)
       "Content-Type" = some (relayContentType ct)) ∧
    ((imageHandler env req parse (.success st ct text)).response.status = st ∧
     (imageHandler env req parse (.success st ct text)).response.body = text ∧
     getHeader ((imageHandler env req parse (.success st ct text)).response.headers)
       "Content-Type" = some (relayContentType ct)) ∧
    (∀ c, c ≠ "" → relayContentType (some c) = c) ∧
    relayContentType none = "application/json" ∧
    relayContentType (some "") = "application/json" := by
  rw [textHandler_relay env req parse st ct text b hm hk ht hb,
    imageHandler_relay env req parse st ct text b hm hk ht hb]
  refine ⟨⟨rfl, rfl, textRelayHeaders_contentType env req ct⟩,
    ⟨rfl, rfl, imageRelayHeaders_contentType env req ct⟩, ?_, rfl, rfl⟩
  intro c hc
  simp [relayContentType, hc]

/-- C4 witness: a concrete upstream 429 with a non-empty content type is
relayed untouched. -/
theorem c4_relay_transparent_witness :
    (textHandler ⟨none, some "k", none⟩ ⟨"POST", none, none, .json (Json.obj [])⟩
      (fun _ => none) (.success 429 (some "text/plain") "ratelimited")).response.status =
      429 ∧
    (imageHandler ⟨none, some "k", none⟩ ⟨"POST", none, none, .json (Json.obj [])⟩
      (fun _ => none) (.success 429 (some "text/plain") "ratelimited")).response.body =
      "ratelimited" := by
  have h := c4_relay_transparent ⟨none, some "k", none⟩
    ⟨"POST", none, none, .json (Json.obj [])⟩ (fun _ => none)
    429 (some "text/plain") "ratelimited" (Json.obj []) rfl (by decide) (by decide) rfl
  exact ⟨h.1.1, h.2.1.2.1⟩

/-! ## Claim C5: upstream fetch failure -/

/-- C5: when the fetch throws, both variants answer 502 with the JSON body
`error: Upstream fetch failed` and `detail` equal to
`String(err?.message || err)`, which is non-empty whenever `String(err)` is
non-empty (as it is for the errors `fetch` rejects with). -/
theorem c5_fetch_failure (env : Env) (req : Request) (parse : String → Option Json)
    (e : JsError) (b : Json)
    (hm : req.method = "POST") (hk : env.GEMINI_API_KEY.getD "" ≠ "")
    (ht : ¬(requiredToken env ≠ "" ∧ reqToken req ≠ requiredToken env))
    (hb : coerceBody parse req.body = some b) (hstr : e.str ≠ "") :
    ((textHandler env req parse (.failure e)).response.status = 502 ∧
     (textHandler env req parse (.failure e)).response.body = fetchFailBody e) ∧
    ((imageHandler env req parse (.failure e)).response.status = 502 ∧
     (imageHandler env req parse (.failure e)).response.body = fetchFailBody e) ∧
    fetchFailBody e = jstringify (Json.obj
      [("error", Json.str "Upstream fetch failed"),
       ("detail", Json.str (jsErrDetail e))]) ∧
    jsErrDetail e ≠ "" := by
  rw [textHandler_fetchFail env req parse e b hm hk ht hb,
    imageHandler_fetchFail env req parse e b hm hk ht hb]
  refine ⟨⟨rfl, rfl⟩, ⟨rfl, rfl⟩, rfl, ?_⟩
  unfold jsErrDetail
  cases e.message with
  | none => exact hstr
  | some m =>
      by_cases hmm : m = ""
      · simp [hmm, hstr]
      · simp [hmm]

/-- C5 witness: a concrete network failure. -/
theorem c5_fetch_failure_witness :
    (textHandler ⟨none, some "k", none⟩ ⟨"POST", none, none, .json (Json.obj [])⟩
      (fun _ => none) (.failure ⟨none, "TypeError: fetch failed"⟩)).response.status =
      502 ∧
    jsErrDetail ⟨none, "TypeError: fetch failed"⟩ ≠ "" := by
  have h := c5_fetch_failure ⟨none, some "k", none⟩
    ⟨"POST", none, none, .json (Json.obj [])⟩ (fun _ => none)
    ⟨none, "TypeError: fetch failed"⟩ (Json.obj []) rfl (by decide) (by decide) rfl
    (by decide)
  exact ⟨h.1.1, h.2.2.2⟩

/-! ## Claim C6: missing GEMINI_API_KEY -/

/-- C6: on a POST with no `GEMINI_API_KEY` configured, both variants answer
500 with the fixed misconfiguration message (a constant body, so no secret
can appear in it). -/
theorem c6_missing_key (env : Env) (req : Request) (parse : String → Option Json)
    (fr : FetchOutcome) (hm : req.method = "POST") (hk : env.GEMINI_API_KEY = none) :
    ((textHandler env req parse fr).response.status = 500 ∧
     (textHandler env req parse fr).response.body =
       errBody "Server misconfigured: missing GEMINI_API_KEY") ∧
    ((imageHandler env req parse fr).response.status = 500 ∧
     (imageHandler env req parse fr).response.body =
       errBody "Server misconfigured: missing GEMINI_API_KEY") := by
  have hk' : env.GEMINI_API_KEY.getD "" = "" := by rw [hk]; rfl
  rw [textHandler_noApiKey env req parse fr hm hk',
    imageHandler_noApiKey env req parse fr hm hk']
  exact ⟨⟨rfl, rfl⟩, rfl, rfl⟩

/-- C6 witness: concrete run with a client token configured and an origin
set, still 500 with the fixed body. -/
theorem c6_missing_key_witness :
    (textHandler ⟨none, none, some "tok"⟩
      ⟨"POST", some "https://a.example", some "tok", .undef⟩ (fun _ => none)
      (.success 200 none "")).response.status = 500 ∧
    (imageHandler ⟨none, none, some "tok"⟩
      ⟨"POST", some "https://a.example", some "tok", .undef⟩ (fun _ => none)
      (.success 200 none "")).response.body =
      errBody "Server misconfigured: missing GEMINI_API_KEY" := by
  have h := c6_missing_key ⟨none, none, some "tok"⟩
    ⟨"POST", some "https://a.example", some "tok", .undef⟩ (fun _ => none)
    (.success 200 none "") rfl rfl
  exact ⟨h.1.1, h.2.2⟩

/-! ## Claim C7: client-token authentication -/

/-- If the text variant took the 401 branch, the token check really fired. -/
theorem textHandler_badToken_inv (env : Env) (req : Request)
    (parse : String → Option Json) (fr : FetchOutcome)
    (h : (textHandler env req parse fr).branch = .badToken) :
    requiredToken env ≠ "" ∧ reqToken req ≠ requiredToken env := by
  by_cases h1 : req.method = "OPTIONS"
  · rw [textHandler_options env req parse fr h1] at h; simp at h
  · by_cases h2 : req.method = "POST"
    · by_cases h3 : env.GEMINI_API_KEY.getD "" = ""
      · rw [textHandler_noApiKey env req parse fr h2 h3] at h; simp at h
      · by_cases h4 : requiredToken env ≠ "" ∧ reqToken req ≠ requiredToken env
        · exact h4
        · cases hb : coerceBody parse req.body with
          | none => rw [textHandler_badJson env req parse fr h2 h3 h4 hb] at h; simp at h
          | some b =>
              cases fr with
              | success st ct text =>
                  rw [textHandler_relay env req parse st ct text b h2 h3 h4 hb] at h
                  simp at h
              | failure e =>
                  rw [textHandler_fetchFail env req parse e b h2 h3 h4 hb] at h
                  simp at h
    · rw [textHandler_badMethod env req parse fr h1 h2] at h; simp at h

/-- If the image-preview variant took the 401 branch, the token check
really fired. -/
theorem imageHandler_badToken_inv (env : Env) (req : Request)
    (parse : String → Option Json) (fr : FetchOutcome)
    (h : (imageHandler env req parse fr).branch = .badToken) :
    requiredToken env ≠ "" ∧ reqToken req ≠ requiredToken env := by
  by_cases h1 : req.method = "OPTIONS"
  · rw [imageHandler_options env req parse fr h1] at h; simp at h
  · by_cases h2 : req.method = "POST"
    · by_cases h3 : env.GEMINI_API_KEY.getD "" = ""
      · rw [imageHandler_noApiKey env req parse fr h2 h3] at h; simp at h
      · by_cases h4 : requiredToken env ≠ "" ∧ reqToken req ≠ requiredToken env
        · exact h4
        · cases hb : coerceBody parse req.body with
          | none => rw [imageHandler_badJson env req parse fr h2 h3 h4 hb] at h; simp at h
          | some b =>
              cases fr with
              | success st ct text =>
                  rw [imageHandler_relay env req parse st ct text b h2 h3 h4 hb] at h
                  simp at h
              | failure e =>
                  rw [imageHandler_fetchFail env req parse e b h2 h3 h4 hb] at h
                  simp at h
    · rw [imageHandler_badMethod env req parse fr h1 h2] at h; simp at h

/-- C7: on a POST with the key configured, a configured non-empty client
token rejects any request whose `X-Client-Token` value (absent reads as the
empty string) differs, with a 401 `Unauthorized` body, on both variants;
with no token configured, neither variant can take the 401 branch. -/
theorem c7_client_token (env : Env) (req : Request) (parse : String → Option Json)
    (fr : FetchOutcome) (hm : req.method = "POST")
    (hk : env.GEMINI_API_KEY.getD "" ≠ "") :
    (requiredToken env ≠ "" → reqToken req ≠ requiredToken env →
      ((textHandler env req parse fr).response.status = 401 ∧
       (textHandler env req parse fr).response.body = errBody "Unauthorized") ∧
      ((imageHandler env req parse fr).response.status = 401 ∧
       (imageHandler env req parse fr).response.body = errBody "Unauthorized")) ∧
    (requiredToken env = "" →
      (textHandler env req parse fr).branch ≠ .badToken ∧
      (imageHandler env req parse fr).branch ≠ .badToken) := by
  constructor
  · intro h1 h2
    rw [textHandler_badToken env req parse fr hm hk h1 h2,
      imageHandler_badToken env req parse fr hm hk h1 h2]
    exact ⟨⟨rfl, rfl⟩, rfl, rfl⟩
  · intro h0
    exact ⟨fun hbad => (textHandler_badToken_inv env req parse fr hbad).1 h0,
      fun hbad => (imageHandler_badToken_inv env req parse fr hbad).1 h0⟩

/-- C7 witness: a missing token header is rejected when a token is
configured; with no token configured the 401 branch is unreachable. -/
theorem c7_client_token_witness :
    (textHandler ⟨none, some "k", some "sekrit"⟩ ⟨"POST", none, none, .undef⟩
      (fun _ => none) (.success 200 none "")).response.status = 401 ∧
    (imageHandler ⟨none, some "k", none⟩ ⟨"POST", none, none, .undef⟩
      (fun _ => none) (.success 200 none "")).branch ≠ .badToken := by
  have h := c7_client_token ⟨none, some "k", some "sekrit"⟩
    ⟨"POST", none, none, .undef⟩ (fun _ => none) (.success 200 none "") rfl (by decide)
  have h2 := c7_client_token ⟨none, some "k", none⟩
    ⟨"POST", none, none, .undef⟩ (fun _ => none) (.success 200 none "") rfl (by decide)
  exact ⟨((h.1 (by decide) (by decide)).1).1, (h2.2 rfl).2⟩

/-! ## Claim C8: denied origins get no allow-origin header -/

/-- C8: with a non-empty allow-list and a request origin that is neither a
member nor `"null"` (an absent `Origin` header reads as the empty string),
no `Access-Control-Allow-Origin` header is emitted by either variant, on
any code path. -/
theorem c8_denied_origin (env : Env) (req : Request) (parse : String → Option Json)
    (fr : FetchOutcome)
    (hne : getAllowedOrigins env.ALLOWED_ORIGINS ≠ [])
    (hmem : reqOrigin req ∉ getAllowedOrigins env.ALLOWED_ORIGINS)
    (hnull : reqOrigin req ≠ "null") :
    getHeader ((textHandler env req parse fr).response.headers)
      "Access-Control-Allow-Origin" = none ∧
    getHeader ((imageHandler env req parse fr).response.headers)
      "Access-Control-Allow-Origin" = none := by
  have haot : allowOriginText env (reqOrigin req) = "" :=
    allowOriginText_denied env _ hne hmem
  have haoi : allowOriginImage env (reqOrigin req) = "" :=
    allowOriginImage_denied env _ hne hmem hnull
  have hro : req.origin.getD "" = reqOrigin req := rfl
  constructor
  · rcases textHandler_headers_cases env req parse fr with h | ⟨ct, h⟩
    · rw [h, corsText_acao, haot]; simp
    · rw [h, textRelayHeaders_acao, haot]; simp
  · rcases imageHandler_headers_cases env req parse fr with h | ⟨ct, h⟩ | h
    · rw [h, setCors_acao, hro, haoi]; simp [getHeader_nil]
    · rw [h, imageRelayHeaders_acao, haoi]; simp
    · rw [h, imageFailHeaders_acao, haoi]; simp

/-- C8 witness: allow-list `["https://example.com"]`, `Origin` header
absent. -/
theorem c8_denied_origin_witness :
    getHeader ((textHandler ⟨some "https://example.com", some "k", none⟩
      ⟨"POST", none, none, .undef⟩ (fun _ => none)
      (.success 200 none "")).response.headers) "Access-Control-Allow-Origin" = none ∧
    getHeader ((imageHandler ⟨some "https://example.com", some "k", none⟩
      ⟨"POST", none, none, .undef⟩ (fun _ => none)
      (.success 200 none "")).response.headers) "Access-Control-Allow-Origin" =
      none :=
  c8_denied_origin _ _ _ _ (by decide) (by decide) (by decide)

/-! ## Claim C9: preflight -/

/-- C9: every `OPTIONS` request, whatever the configuration and body, gets
204 with an empty body and the CORS headers, on both variants. -/
theorem c9_preflight (env : Env) (req : Request) (parse : String → Option Json)
    (fr : FetchOutcome) (hm : req.method = "OPTIONS") :
    ((textHandler env req parse fr).response.status = 204 ∧
     (textHandler env req parse fr).response.body = "" ∧
     getHeader ((textHandler env req parse fr).response.headers)
       "Access-Control-Allow-Methods" = some "POST, OPTIONS" ∧
     getHeader ((textHandler env req parse fr).response.headers)
       "Access-Control-Allow-Headers" = some "Content-Type, X-Client-Token") ∧
    ((imageHandler env req parse fr).response.status = 204 ∧
     (imageHandler env req parse fr).response.body = "" ∧
     getHeader ((imageHandler env req parse fr).response.headers)
       "Access-Control-Allow-Methods" = some "POST, OPTIONS" ∧
     getHeader ((imageHandler env req parse fr).response.headers)
       "Access-Control-Allow-Headers" = some "Content-Type, X-Client-Token" ∧
     getHeader ((imageHandler env req parse fr).response.headers) "Vary" =
       some "Origin") := by
  rw [textHandler_options env req parse fr hm, imageHandler_options env req parse fr hm]
  exact ⟨⟨rfl, rfl, corsText_methods env req, corsText_allowHeaders env req⟩,
    rfl, rfl, setCors_methods [] env req.origin, setCors_allowHeaders [] env req.origin,
    setCors_vary [] env req.origin⟩

/-- C9 witness: `OPTIONS` with no API key configured, a configured client
token, and a malformed body still gets 204 with an empty body. -/
theorem c9_preflight_witness :
    (textHandler ⟨some "https://x.example", none, some "t"⟩
      ⟨"OPTIONS", none, none, .raw "\x7bbad"⟩ (fun _ => none)
      (.success 200 none "")).response.status = 204 ∧
    (imageHandler ⟨some "https://x.example", none, some "t"⟩
      ⟨"OPTIONS", none, none, .raw "\x7bbad"⟩ (fun _ => none)
      (.success 200 none "")).response.body = "" := by
  have h := c9_preflight ⟨some "https://x.example", none, some "t"⟩
    ⟨"OPTIONS", none, none, .raw "\x7bbad"⟩ (fun _ => none)
    (.success 200 none "") rfl
  exact ⟨h.1.1, h.2.2.1⟩

/-! ## Claim C10: absent, null and empty bodies -/

/-- C10 counterexample: a `null` request body (`typeof null === 'object'`)
is not replaced by the empty object: it is forwarded upstream as the text
`null`, not as the empty-object text. -/
theorem c10_null_body_forwarded_as_null :
    ((textHandler ⟨none, some "k", none⟩ ⟨"POST", none, none, .json Json.null⟩
        (fun _ => none) (.success 200 none "")).upstream).map
      (fun u => u.bodyText) = some "null" ∧ ("null" : String) ≠ "\x7b\x7d" :=
  ⟨rfl, by decide⟩

/-- C10 (amended): an absent or empty-string body is treated as the empty
JSON object and forwarded as its text, and is never rejected as invalid
JSON; a `null` body is likewise never rejected, but is forwarded as the
text `null` rather than as the empty object, because
`typeof null === 'object'` bypasses the `req.body || '\x7b\x7d'` default. -/
theorem c10_empty_body_defaults (env : Env) (req : Request)
    (parse : String → Option Json) (fr : FetchOutcome)
    (hm : req.method = "POST") (hk : env.GEMINI_API_KEY.getD "" ≠ "")
    (ht : ¬(requiredToken env ≠ "" ∧ reqToken req ≠ requiredToken env))
    (hp : parse "\x7b\x7d" = some (Json.obj [])) :
    ((req.body = .undef ∨ req.body = .raw "") →
      ((textHandler env req parse fr).branch ≠ .badJson ∧
       ((textHandler env req parse fr).upstream).map (fun u => u.bodyText) =
         some "\x7b\x7d") ∧
      ((imageHandler env req parse fr).branch ≠ .badJson ∧
       ((imageHandler env req parse fr).upstream).map (fun u => u.bodyText) =
         some "\x7b\x7d")) ∧
    (req.body = .json Json.null →
      ((textHandler env req parse fr).branch ≠ .badJson ∧
       ((textHandler env req parse fr).upstream).map (fun u => u.bodyText) =
         some "null") ∧
      ((imageHandler env req parse fr).branch ≠ .badJson ∧
       ((imageHandler env req parse fr).upstream).map (fun u => u.bodyText) =
         some "null")) := by
  constructor
  · intro hb0
    have hb : coerceBody parse req.body = some (Json.obj []) := by
      rcases hb0 with h | h <;> simp [coerceBody, h, hp]
    have hs : sanitize (Json.obj []) = Json.obj [] :=
      sanitize_noField _ (by simp [Json.get])
    cases fr with
    | success st ct text =>
        rw [textHandler_relay env req parse st ct text _ hm hk ht hb,
          imageHandler_relay env req parse st ct text _ hm hk ht hb]
        rw [hs]
        exact ⟨⟨by simp, rfl⟩, by simp, rfl⟩
    | failure e =>
        rw [textHandler_fetchFail env req parse e _ hm hk ht hb,
          imageHandler_fetchFail env req parse e _ hm hk ht hb]
        rw [hs]
        exact ⟨⟨by simp, rfl⟩, by simp, rfl⟩
  · intro hb0
    have hb : coerceBody parse req.body = some Json.null := by
      simp [coerceBody, hb0]
    have hs : sanitize Json.null = Json.null :=
      sanitize_noField _ (by simp [Json.get])
    cases fr with
    | success st ct text =>
        rw [textHandler_relay env req parse st ct text _ hm hk ht hb,
          imageHandler_relay env req parse st ct text _ hm hk ht hb]
        rw [hs]
        exact ⟨⟨by simp, rfl⟩, by simp, rfl⟩
    | failure e =>
        rw [textHandler_fetchFail env req parse e _ hm hk ht hb,
          imageHandler_fetchFail env req parse e _ hm hk ht hb]
        rw [hs]
        exact ⟨⟨by simp, rfl⟩, by simp, rfl⟩

/-- C10 witness: an absent body reaches the upstream as the empty-object
text. -/
theorem c10_empty_body_defaults_witness :
    ((textHandler ⟨none, some "k", none⟩ ⟨"POST", none, none, .undef⟩
        (fun s => if s = "\x7b\x7d" then some (Json.obj []) else none)
        (.success 200 none "ok")).upstream).map (fun u => u.bodyText) =
      some "\x7b\x7d" := by
  have h := c10_empty_body_defaults ⟨none, some "k", none⟩
    ⟨"POST", none, none, .undef⟩
    (fun s => if s = "\x7b\x7d" then some (Json.obj []) else none)
    (.success 200 none "ok") rfl (by decide) (by decide) rfl
  exact (h.1 (Or.inl rfl)).1.2

end GeminiProxy
